import Mathlib

/-!
Verification of the resend-link worker (`src/index.ts`).

The worker serves remote email HTML behind signed links.  Its request
pipeline is: edge-cache lookup, environment validation, token extraction,
JWT verification, remote fetch, response construction, and an asynchronous
cache write.  Every fallible stage returns a `HandlerResult` value instead
of throwing.

The embedding below mirrors `src/index.ts` definition by definition.  The
two external collaborators — the `jose` JWT verifier and the Resend client —
are modelled by their observable outcomes (`VerifyOutcome`,
`ResendBehavior`): the worker only ever inspects the payload on success,
the thrown/returned error shape on failure, and the `data`/`error` fields
of the Resend reply, so these outcome types capture everything the code
branches on.
-/

namespace ResendLink

/-- Mirror of `HandlerResult<T>`: `{ok: true, value}` or
`{ok: false, status, message}`. -/
inductive HandlerResult (T : Type) where
  | success (value : T)
  | failure (status : Nat) (message : String)
deriving DecidableEq, Repr

/-- Mirror of the `Env` bindings interface. -/
structure Env where
  RESEND_API_KEY : String
  RESEND_JWT_SECRET : String
deriving DecidableEq, Repr

/-- Validated credentials, the success payload of `validateEnv`. -/
structure Creds where
  apiKey : String
  jwtSecret : String
deriving DecidableEq, Repr

/-- A character that JavaScript `String.prototype.trim` removes
(WhiteSpace or LineTerminator; the common members suffice for the
branching the worker does). -/
def isWsChar (c : Char) : Bool :=
  c = ' ' || c = '\t' || c = '\n' || c = '\r' ||
  c = '\x0b' || c = '\x0c'

/-- Drop leading whitespace characters from a character list. -/
def dropWsList : List Char → List Char
  | [] => []
  | c :: cs => if isWsChar c then dropWsList cs else c :: cs

/-- Model of JavaScript `value.trim()`: strip whitespace from both ends. -/
def jsTrim (s : String) : String :=
  String.mk ((dropWsList ((dropWsList s.data).reverse)).reverse)

/-- Model of an HTTP `Response` as the worker builds it: status, the
`content-type` header, the `cache-control` header when set, and body. -/
structure Response where
  status : Nat
  contentType : String
  cacheControl : Option String
  body : String
deriving DecidableEq, Repr

/-- Mirror of `createErrorResponse`: plain-text body, given status, no
`cache-control` header. -/
def createErrorResponse (message : String) (status : Nat) : Response :=
  { status := status
    contentType := "text/plain; charset=utf-8"
    cacheControl := none
    body := message }

/-- Mirror of `createSuccessResponse`: HTML body, status 200, and a
`cache-control` header that depends on the sign of `ttlSeconds`. -/
def createSuccessResponse (html : String) (ttlSeconds : Int) : Response :=
  { status := 200
    contentType := "text/html; charset=utf-8"
    cacheControl :=
      if ttlSeconds > 0 then
        some ("public, max-age=" ++ toString ttlSeconds ++
          ", s-maxage=" ++ toString ttlSeconds)
      else
        some "no-store"
    body := html }

/-- Mirror of `normalizeSecret`: trim, reject when blank. -/
def normalizeSecret (value : String) : HandlerResult String :=
  let trimmed := jsTrim value
  if trimmed.length = 0 then
    .failure 500 "Server misconfigured"
  else
    .success trimmed

/-- Mirror of `validateEnv`: both secrets must normalize. -/
def validateEnv (env : Env) : HandlerResult Creds :=
  match normalizeSecret env.RESEND_API_KEY with
  | .failure s m => .failure s m
  | .success apiKey =>
    match normalizeSecret env.RESEND_JWT_SECRET with
    | .failure s m => .failure s m
    | .success jwtSecret => .success ⟨apiKey, jwtSecret⟩

/-- A JSON-ish claim value as the worker's `typeof` checks see it:
a string, a number, or anything else. -/
inductive JsonVal where
  | str (s : String)
  | num (n : Int)
  | other
deriving DecidableEq, Repr

/-- The JWT payload fields the worker reads; `none` models an absent
(`undefined`) claim. -/
structure JWTPayload where
  email_id : Option JsonVal
  iat : Option JsonVal
  exp : Option JsonVal
deriving DecidableEq, Repr

/-- The distinct reasons the `jose` verifier throws; the worker's `catch`
receives one of these without inspecting it. -/
inductive VerifyError where
  | badSignature
  | malformed
  | expired
deriving DecidableEq, Repr

/-- Observable outcome of `jwtVerify`: a verified payload, or a throw. -/
inductive VerifyOutcome where
  | ok (payload : JWTPayload)
  | error (e : VerifyError)
deriving DecidableEq, Repr

/-- The verified claims, the success payload of `resolveEmailId`. -/
structure VerifiedClaims where
  emailId : String
  issuedAtSeconds : Int
  expiresAtSeconds : Int
deriving DecidableEq, Repr

/-- Mirror of `extractEmailId`: the `email_id` claim must be a non-empty
string. -/
def extractEmailId (payload : JWTPayload) : HandlerResult String :=
  match payload.email_id with
  | some (.str s) =>
    if s.length > 0 then .success s
    else .failure 400 "Token payload missing email_id"
  | _ => .failure 400 "Token payload missing email_id"

/-- Mirror of `resolveEmailId`, with `jwtVerify`'s observable outcome as
input: a throw becomes the uniform 401; on a verified payload the
`email_id` claim is checked first, then the numeric `iat`/`exp` claims. -/
def resolveEmailId (outcome : VerifyOutcome) : HandlerResult VerifiedClaims :=
  match outcome with
  | .error _ => .failure 401 "Invalid or expired token"
  | .ok payload =>
    match extractEmailId payload with
    | .failure s m => .failure s m
    | .success emailId =>
      match payload.iat, payload.exp with
      | some (.num iat), some (.num exp) => .success ⟨emailId, iat, exp⟩
      | _, _ => .failure 400 "Token missing required timestamps"

/-- The `error` field of a Resend reply as `isResendClientError` sees it:
a record with a string `message`, a non-record, or a record whose
`message` is not a string. -/
inductive ErrField where
  | withMessage (message : String)
  | nonRecord
  | recordNoStringMessage
deriving DecidableEq, Repr

/-- Mirror of `isResendClientError`: true exactly for a record with a
string `message`. -/
def isResendClientError (e : ErrField) : Bool :=
  match e with
  | .withMessage _ => true
  | _ => false

/-- The `data` field of a Resend reply: its `html` field as the worker's
`typeof` check sees it (`none` models absent). -/
structure ResendData where
  html : Option JsonVal
deriving DecidableEq, Repr

/-- Observable behaviour of `resend.emails.get`: a thrown transport
exception, or a reply with `data` and `error` fields (`none` models
`null`/`undefined`). -/
inductive ResendBehavior where
  | throws
  | returns (data : Option ResendData) (error : Option ErrField)
deriving DecidableEq, Repr

/-- Mirror of `fetchEmailHtml`, with the client's observable behaviour as
input: normalizes every provider outcome into a `HandlerResult`. -/
def fetchEmailHtml (behavior : ResendBehavior) : HandlerResult String :=
  match behavior with
  | .throws => .failure 502 "Unable to fetch email"
  | .returns data error =>
    match error with
    | some e =>
      match e with
      | .withMessage m => .failure 502 m
      | _ => .failure 502 "Unable to fetch email"
    | none =>
      match data with
      | none => .failure 404 "Email not found"
      | some d =>
        match d.html with
        | some (.str s) =>
          if s.length = 0 then .failure 502 "Email body is unavailable"
          else .success s
        | _ => .failure 502 "Email body is unavailable"

/-- Mirror of `extractTokenFromRequest`: the `token` query parameter
(`none` models absent) must be non-blank after trimming. -/
def extractTokenFromRequest (tokenParam : Option String) :
    HandlerResult String :=
  match tokenParam with
  | none => .failure 400 "Token not provided"
  | some token =>
    let trimmed := jsTrim token
    if trimmed.length = 0 then .failure 400 "Token not provided"
    else .success trimmed

/-- What one invocation of the `GET /` handler produces: the response sent
to the client, the entry scheduled for the edge-cache write (if any), and
whether the remote fetch was invoked. -/
structure PipelineOutcome where
  response : Response
  cachePut : Option Response
  fetchInvoked : Bool
deriving DecidableEq, Repr

/-- Mirror of the `app.get` handler.  `cached` is the edge cache's answer
for this request's key; `verify` maps a token and secret to `jwtVerify`'s
outcome; `resend` maps an email id and API key to the client's behaviour;
`nowMs` is `Date.now()`. -/
def handleRequest (cached : Option Response) (env : Env)
    (tokenParam : Option String)
    (verify : String → String → VerifyOutcome)
    (resend : String → String → ResendBehavior)
    (nowMs : Nat) : PipelineOutcome :=
  match cached with
  | some r => ⟨r, none, false⟩
  | none =>
    match validateEnv env with
    | .failure s m => ⟨createErrorResponse m s, none, false⟩
    | .success creds =>
      match extractTokenFromRequest tokenParam with
      | .failure s m => ⟨createErrorResponse m s, none, false⟩
      | .success token =>
        match resolveEmailId (verify token creds.jwtSecret) with
        | .failure s m => ⟨createErrorResponse m s, none, false⟩
        | .success claims =>
          match fetchEmailHtml (resend claims.emailId creds.apiKey) with
          | .failure s m => ⟨createErrorResponse m s, none, true⟩
          | .success html =>
            let maxAgeSeconds : Int :=
              claims.expiresAtSeconds - Int.ofNat (nowMs / 1000)
            let response := createSuccessResponse html maxAgeSeconds
            ⟨response,
              if maxAgeSeconds > 0 then some response else none,
              true⟩

/-! ### Helper lemmas about `jsTrim` -/

theorem dropWsList_head_not_ws :
    ∀ (l : List Char) (c : Char) (cs : List Char),
      dropWsList l = c :: cs → isWsChar c = false := by
  intro l
  induction l with
  | nil => intro c cs h; simp [dropWsList] at h
  | cons x xs ih =>
    intro c cs h
    by_cases hx : isWsChar x
    · rw [dropWsList, if_pos hx] at h
      exact ih c cs h
    · rw [dropWsList, if_neg hx] at h
      injection h with h1 _
      subst h1
      simpa using hx

theorem dropWsList_eq_self (l : List Char)
    (h : ∀ c cs, l = c :: cs → isWsChar c = false) : dropWsList l = l := by
  cases l with
  | nil => rfl
  | cons c cs => rw [dropWsList, if_neg (by simp [h c cs rfl])]

theorem dropWsList_idem (l : List Char) :
    dropWsList (dropWsList l) = dropWsList l :=
  dropWsList_eq_self _ (fun c cs h => dropWsList_head_not_ws l c cs h)

theorem dropWsList_suffix (l : List Char) : ∃ p, l = p ++ dropWsList l := by
  induction l with
  | nil => exact ⟨[], rfl⟩
  | cons c cs ih =>
    by_cases hc : isWsChar c
    · obtain ⟨p, hp⟩ := ih
      refine ⟨c :: p, ?_⟩
      rw [dropWsList, if_pos hc]
      simpa using hp
    · exact ⟨[], by rw [dropWsList, if_neg hc, List.nil_append]⟩

theorem dropWsList_head?_not_ws (l : List Char) (x : Char)
    (h : (dropWsList l).head? = some x) : isWsChar x = false := by
  cases hd : dropWsList l with
  | nil => rw [hd] at h; simp at h
  | cons c cs =>
    rw [hd] at h
    simp only [List.head?_cons, Option.some.injEq] at h
    subst h
    exact dropWsList_head_not_ws l c cs hd

theorem jsTrim_idem (s : String) : jsTrim (jsTrim s) = jsTrim s := by
  have key : ∀ l : List Char,
      (dropWsList
        ((dropWsList
          ((dropWsList ((dropWsList l).reverse)).reverse)).reverse)).reverse
        = (dropWsList ((dropWsList l).reverse)).reverse := by
    intro l
    set a := dropWsList l with ha
    set c := dropWsList a.reverse with hc
    have hA : dropWsList c.reverse = c.reverse := by
      apply dropWsList_eq_self
      intro x xs hx
      have hcne : c ≠ [] := by
        intro hnil
        rw [hnil] at hx
        simp at hx
      have h1 : c.reverse.head? = some x := by rw [hx]; rfl
      rw [List.head?_reverse] at h1
      obtain ⟨p, hp⟩ := dropWsList_suffix a.reverse
      rw [← hc] at hp
      have h2 : (p ++ c).getLast? = c.getLast? :=
        List.getLast?_append_of_ne_nil p hcne
      have h3 : a.reverse.getLast? = some x := by rw [hp, h2, h1]
      rw [List.getLast?_reverse] at h3
      exact dropWsList_head?_not_ws l x (by rw [← ha] at *; exact h3)
    rw [hA, List.reverse_reverse]
    have hcc : dropWsList c = c := by
      rw [hc]; exact dropWsList_idem a.reverse
    rw [hcc]
  unfold jsTrim
  exact congrArg String.mk (key s.data)

/-! ### Claim theorems -/

/-- C3: for every token whose signature is invalid, whose structure is
malformed, or whose expiry is in the past, verification returns the single
failure Result with status 401 and message "Invalid or expired token",
with no distinction among the three causes. -/
theorem claim_C3_uniform_verification_failure (e : VerifyError) :
    resolveEmailId (.error e) = .failure 401 "Invalid or expired token" := by
  cases e <;> rfl

/-- C5: the fetch operation returns a Result for every provider behaviour
and never throws: a reported error with a string message yields failure 502
with that message; a reported error without a string message yields failure
502 with the generic message; absent data yields failure 404 "Email not
found"; present data whose html field is missing, non-string, or empty
yields failure 502; a thrown transport exception yields failure 502 with
the generic message; otherwise the non-empty html string is returned as
success. -/
theorem claim_C5_fetch_normalizes_all_outcomes :
    (∀ (data : Option ResendData) (m : String),
      fetchEmailHtml (.returns data (some (.withMessage m))) =
        .failure 502 m) ∧
    (∀ data : Option ResendData,
      fetchEmailHtml (.returns data (some .nonRecord)) =
        .failure 502 "Unable to fetch email") ∧
    (∀ data : Option ResendData,
      fetchEmailHtml (.returns data (some .recordNoStringMessage)) =
        .failure 502 "Unable to fetch email") ∧
    (fetchEmailHtml (.returns none none) = .failure 404 "Email not found") ∧
    (fetchEmailHtml (.returns (some ⟨none⟩) none) =
      .failure 502 "Email body is unavailable") ∧
    (∀ n : Int, fetchEmailHtml (.returns (some ⟨some (.num n)⟩) none) =
      .failure 502 "Email body is unavailable") ∧
    (fetchEmailHtml (.returns (some ⟨some .other⟩) none) =
      .failure 502 "Email body is unavailable") ∧
    (∀ s : String, fetchEmailHtml (.returns (some ⟨some (.str s)⟩) none) =
      if s.length = 0 then .failure 502 "Email body is unavailable"
      else .success s) ∧
    (fetchEmailHtml .throws = .failure 502 "Unable to fetch email") :=
  ⟨fun _ _ => rfl, fun _ => rfl, fun _ => rfl, rfl, rfl, fun _ => rfl, rfl,
    fun _ => rfl, rfl⟩

/-- C6: for a verified payload, validation performs two distinct checks
with distinct failures: an absent or non-non-empty-string email_id claim
fails 400 "Token payload missing email_id"; otherwise absent or non-numeric
iat/exp claims fail 400 "Token missing required timestamps"; when both
checks pass, the claims are returned as success. -/
theorem claim_C6_payload_validation_two_checks :
    (∀ (ev iatv expv : Option JsonVal),
      (∀ s, ev = some (.str s) → s.length = 0) →
      resolveEmailId (.ok ⟨ev, iatv, expv⟩) =
        .failure 400 "Token payload missing email_id") ∧
    (∀ (s : String) (iatv expv : Option JsonVal), s.length ≠ 0 →
      (∀ n m : Int, ¬(iatv = some (.num n) ∧ expv = some (.num m))) →
      resolveEmailId (.ok ⟨some (.str s), iatv, expv⟩) =
        .failure 400 "Token missing required timestamps") ∧
    (∀ (s : String) (n m : Int), s.length ≠ 0 →
      resolveEmailId (.ok ⟨some (.str s), some (.num n), some (.num m)⟩) =
        .success ⟨s, n, m⟩) := by
  refine ⟨?_, ?_, ?_⟩
  · intro ev iatv expv h
    cases ev with
    | none => rfl
    | some v =>
      cases v with
      | str s =>
        have h0 := h s rfl
        simp [resolveEmailId, extractEmailId, h0]
      | num n => rfl
      | other => rfl
  · intro s iatv expv hlen hts
    have hpos : s.length > 0 := Nat.pos_of_ne_zero hlen
    have hex : extractEmailId ⟨some (.str s), iatv, expv⟩ = .success s := by
      simp [extractEmailId, hpos]
    simp only [resolveEmailId, hex]
    cases h1 : iatv with
    | none => rfl
    | some v₁ =>
      cases v₁ with
      | str s₁ => rfl
      | other => rfl
      | num n =>
        cases h2 : expv with
        | none => rfl
        | some v₂ =>
          cases v₂ with
          | str s₂ => rfl
          | other => rfl
          | num m => exact absurd ⟨h1, h2⟩ (hts n m)
  · intro s n m hlen
    have hpos : s.length > 0 := Nat.pos_of_ne_zero hlen
    simp [resolveEmailId, extractEmailId, hpos]

/-- Witness for C6, at concrete payloads: a payload with no email_id claim,
a payload with an email_id but no iat, and a fully valid payload. -/
theorem claim_C6_payload_validation_two_checks_witness :
    resolveEmailId (.ok ⟨none, some (.num 1), some (.num 2)⟩) =
        .failure 400 "Token payload missing email_id" ∧
    resolveEmailId (.ok ⟨some (.str "e"), none, some (.num 2)⟩) =
        .failure 400 "Token missing required timestamps" ∧
    resolveEmailId (.ok ⟨some (.str "e"), some (.num 1), some (.num 2)⟩) =
        .success ⟨"e", 1, 2⟩ :=
  ⟨claim_C6_payload_validation_two_checks.1 none (some (.num 1))
      (some (.num 2)) (by simp),
    claim_C6_payload_validation_two_checks.2.1 "e" none (some (.num 2))
      (by decide) (by simp),
    claim_C6_payload_validation_two_checks.2.2 "e" 1 2 (by decide)⟩

/-- C9: when a verified payload fails both payload checks — no non-empty
string email_id claim and no numeric iat/exp pair — the failure is 400
"Token payload missing email_id": the subject-claim check is applied
before the timestamp check. -/
theorem claim_C9_email_id_check_first
    (ev iatv expv : Option JsonVal)
    (hid : ∀ s, ev = some (.str s) → s.length = 0)
    (_hts : ∀ n m : Int, ¬(iatv = some (.num n) ∧ expv = some (.num m))) :
    resolveEmailId (.ok ⟨ev, iatv, expv⟩) =
      .failure 400 "Token payload missing email_id" := by
  cases ev with
  | none => rfl
  | some v =>
    cases v with
    | str s =>
      have h0 := hid s rfl
      simp [resolveEmailId, extractEmailId, h0]
    | num n => rfl
    | other => rfl

/-- Witness for C9: the empty payload lacks both the email_id claim and
the timestamps, and fails with the email_id message. -/
theorem claim_C9_email_id_check_first_witness :
    resolveEmailId (.ok ⟨none, none, none⟩) =
      .failure 400 "Token payload missing email_id" :=
  claim_C9_email_id_check_first none none none (by simp) (by simp)

theorem validateEnv_misconfigured (env : Env)
    (h : (jsTrim env.RESEND_API_KEY).length = 0 ∨
         (jsTrim env.RESEND_JWT_SECRET).length = 0) :
    validateEnv env = .failure 500 "Server misconfigured" := by
  rcases h with h | h
  · simp [validateEnv, normalizeSecret, h]
  · unfold validateEnv normalizeSecret
    by_cases hk : (jsTrim env.RESEND_API_KEY).length = 0 <;> simp [hk, h]

theorem extractTokenFromRequest_blank (tokenParam : Option String)
    (h : tokenParam = none ∨
         ∃ s, tokenParam = some s ∧ (jsTrim s).length = 0) :
    extractTokenFromRequest tokenParam = .failure 400 "Token not provided" := by
  rcases h with rfl | ⟨s, rfl, hs⟩
  · rfl
  · simp [extractTokenFromRequest, hs]

/-- C7: whenever either credential is missing or blank after trimming, the
pipeline on a cache miss responds 500 "Server misconfigured" with no cache
write and no fetch, and any two such misconfigured environments produce
identical outcomes regardless of which credential is at fault. -/
theorem claim_C7_misconfigured_env_uniform
    (env₁ env₂ : Env) (tp₁ tp₂ : Option String)
    (v₁ v₂ : String → String → VerifyOutcome)
    (r₁ r₂ : String → String → ResendBehavior) (now₁ now₂ : Nat)
    (h₁ : (jsTrim env₁.RESEND_API_KEY).length = 0 ∨
          (jsTrim env₁.RESEND_JWT_SECRET).length = 0)
    (h₂ : (jsTrim env₂.RESEND_API_KEY).length = 0 ∨
          (jsTrim env₂.RESEND_JWT_SECRET).length = 0) :
    handleRequest none env₁ tp₁ v₁ r₁ now₁ =
      ⟨createErrorResponse "Server misconfigured" 500, none, false⟩ ∧
    handleRequest none env₁ tp₁ v₁ r₁ now₁ =
      handleRequest none env₂ tp₂ v₂ r₂ now₂ := by
  have e₁ := validateEnv_misconfigured env₁ h₁
  have e₂ := validateEnv_misconfigured env₂ h₂
  constructor
  · simp [handleRequest, e₁]
  · simp [handleRequest, e₁, e₂]

/-- Witness for C7: a blank API key and a whitespace-only signing secret
are indistinguishable: both give the 500 outcome. -/
theorem claim_C7_misconfigured_env_uniform_witness :
    handleRequest none ⟨"", "s"⟩ none (fun _ _ => .error .malformed)
        (fun _ _ => .throws) 0 =
      ⟨createErrorResponse "Server misconfigured" 500, none, false⟩ ∧
    handleRequest none ⟨"", "s"⟩ none (fun _ _ => .error .malformed)
        (fun _ _ => .throws) 0 =
      handleRequest none ⟨"k", " "⟩ (some "t") (fun _ _ => .error .expired)
        (fun _ _ => .throws) 7 :=
  claim_C7_misconfigured_env_uniform ⟨"", "s"⟩ ⟨"k", " "⟩ none (some "t")
    (fun _ _ => .error .malformed) (fun _ _ => .error .expired)
    (fun _ _ => .throws) (fun _ _ => .throws) 0 7
    (Or.inl (by decide)) (Or.inr (by decide))

/-- C8: for a request whose token query parameter is absent or blank after
trimming, the pipeline on a cache miss in a validly configured environment
responds 400 "Token not provided" with no cache write, and — for any cache
state and any environment — the remote fetch is never invoked for that
request. -/
theorem claim_C8_blank_token_rejected
    (env : Env) (creds : Creds) (tokenParam : Option String)
    (verify : String → String → VerifyOutcome)
    (resend : String → String → ResendBehavior) (nowMs : Nat)
    (henv : validateEnv env = .success creds)
    (htok : tokenParam = none ∨
            ∃ s, tokenParam = some s ∧ (jsTrim s).length = 0) :
    handleRequest none env tokenParam verify resend nowMs =
      ⟨createErrorResponse "Token not provided" 400, none, false⟩ ∧
    (∀ (cached : Option Response) (env' : Env),
      (handleRequest cached env' tokenParam verify resend nowMs).fetchInvoked
        = false) := by
  have ht := extractTokenFromRequest_blank tokenParam htok
  constructor
  · simp [handleRequest, henv, ht]
  · intro cached env'
    cases cached with
    | some r => rfl
    | none =>
      cases he : validateEnv env' with
      | failure s m => simp [handleRequest, he]
      | success creds' => simp [handleRequest, he, ht]

/-- Witness for C8: a whitespace-only token parameter under a valid
environment. -/
theorem claim_C8_blank_token_rejected_witness :
    handleRequest none ⟨"k", "s"⟩ (some "  ") (fun _ _ => .error .malformed)
        (fun _ _ => .throws) 0 =
      ⟨createErrorResponse "Token not provided" 400, none, false⟩ ∧
    (∀ (cached : Option Response) (env' : Env),
      (handleRequest cached env' (some "  ") (fun _ _ => .error .malformed)
        (fun _ _ => .throws) 0).fetchInvoked = false) :=
  claim_C8_blank_token_rejected ⟨"k", "s"⟩ ⟨"k", "s"⟩ (some "  ")
    (fun _ _ => .error .malformed) (fun _ _ => .throws) 0
    (by decide) (Or.inr ⟨"  ", rfl, by decide⟩)

theorem extractTokenFromRequest_trim (s : String) :
    extractTokenFromRequest (some (jsTrim s)) =
      extractTokenFromRequest (some s) := by
  simp only [extractTokenFromRequest, jsTrim_idem]

/-- C10: a token query parameter with surrounding whitespace behaves
exactly like the same parameter pre-trimmed: the pipeline outcome is
identical, and the verifier receives the trimmed string. -/
theorem claim_C10_whitespace_token_trimmed
    (cached : Option Response) (env : Env) (s : String)
    (verify : String → String → VerifyOutcome)
    (resend : String → String → ResendBehavior) (nowMs : Nat) :
    handleRequest cached env (some s) verify resend nowMs =
      handleRequest cached env (some (jsTrim s)) verify resend nowMs ∧
    ((jsTrim s).length ≠ 0 →
      extractTokenFromRequest (some s) = .success (jsTrim s)) := by
  constructor
  · unfold handleRequest
    rw [extractTokenFromRequest_trim]
  · intro h
    simp [extractTokenFromRequest, h]

/-- Witness for C10: the parameter value " t " is passed to the verifier
as "t". -/
theorem claim_C10_whitespace_token_trimmed_witness :
    (jsTrim " t ").length ≠ 0 ∧
    extractTokenFromRequest (some " t ") = .success (jsTrim " t ") :=
  ⟨by decide,
    (claim_C10_whitespace_token_trimmed none ⟨"k", "s"⟩ " t "
      (fun _ _ => .error .malformed) (fun _ _ => .throws) 0).2 (by decide)⟩

/-- C1: on every successful fetch the response has status 200 and
content-type "text/html; charset=utf-8", and its cache-control header is
derived from ttl = expiresAtSeconds - floor(nowMs / 1000): exactly
"public, max-age=ttl, s-maxage=ttl" when ttl > 0 and exactly "no-store"
when ttl <= 0. -/
theorem claim_C1_success_response_headers
    (env : Env) (creds : Creds) (tokenParam : Option String) (token : String)
    (verify : String → String → VerifyOutcome)
    (resend : String → String → ResendBehavior)
    (nowMs : Nat) (claims : VerifiedClaims) (html : String)
    (henv : validateEnv env = .success creds)
    (htok : extractTokenFromRequest tokenParam = .success token)
    (hver : resolveEmailId (verify token creds.jwtSecret) = .success claims)
    (hfetch : fetchEmailHtml (resend claims.emailId creds.apiKey) =
      .success html) :
    (handleRequest none env tokenParam verify resend nowMs).response =
      { status := 200
        contentType := "text/html; charset=utf-8"
        cacheControl :=
          if claims.expiresAtSeconds - Int.ofNat (nowMs / 1000) > 0 then
            some ("public, max-age=" ++
              toString (claims.expiresAtSeconds - Int.ofNat (nowMs / 1000)) ++
              ", s-maxage=" ++
              toString (claims.expiresAtSeconds - Int.ofNat (nowMs / 1000)))
          else some "no-store"
        body := html } := by
  simp [handleRequest, henv, htok, hver, hfetch, createSuccessResponse]

/-- Witness for C1: a concrete token expiring at second 100, fetched at
millisecond 5000, yields max-age 95. -/
theorem claim_C1_success_response_headers_witness :
    (handleRequest none ⟨"k", "s"⟩ (some "t")
        (fun _ _ => .ok ⟨some (.str "email-1"), some (.num 10),
          some (.num 100)⟩)
        (fun _ _ => .returns (some ⟨some (.str "<p>hi</p>")⟩) none)
        5000).response =
      { status := 200
        contentType := "text/html; charset=utf-8"
        cacheControl := some "public, max-age=95, s-maxage=95"
        body := "<p>hi</p>" } := by
  have h := claim_C1_success_response_headers ⟨"k", "s"⟩ ⟨"k", "s"⟩
    (some "t") "t"
    (fun _ _ => .ok ⟨some (.str "email-1"), some (.num 10), some (.num 100)⟩)
    (fun _ _ => .returns (some ⟨some (.str "<p>hi</p>")⟩) none)
    5000 ⟨"email-1", 10, 100⟩ "<p>hi</p>"
    (by decide) (by decide) (by decide) (by decide)
  rw [h]
  decide

/-- C2: when a first request produced a cache write (a 200 response with
positive remaining TTL), a second request that hits that cache entry
returns the very same response with no cache write and no fetch, for any
environment, token parameter, verifier, provider, and clock — so env
validation, token extraction, verification, and fetch are all bypassed and
the remote fetch ran exactly once across the two requests. -/
theorem claim_C2_second_request_served_from_cache
    (env : Env) (tokenParam : Option String)
    (verify : String → String → VerifyOutcome)
    (resend : String → String → ResendBehavior) (nowMs : Nat) (r : Response)
    (h : (handleRequest none env tokenParam verify resend nowMs).cachePut =
      some r)
    (env' : Env) (tp' : Option String)
    (verify' : String → String → VerifyOutcome)
    (resend' : String → String → ResendBehavior) (now' : Nat) :
    handleRequest (some r) env' tp' verify' resend' now' = ⟨r, none, false⟩ ∧
    r = (handleRequest none env tokenParam verify resend nowMs).response ∧
    (handleRequest none env tokenParam verify resend nowMs).fetchInvoked
      = true ∧
    (handleRequest (some r) env' tp' verify' resend' now').fetchInvoked
      = false := by
  have key :
      r = (handleRequest none env tokenParam verify resend nowMs).response ∧
      (handleRequest none env tokenParam verify resend nowMs).fetchInvoked
        = true := by
    cases he : validateEnv env with
    | failure s m => simp [handleRequest, he] at h
    | success creds =>
      cases ht : extractTokenFromRequest tokenParam with
      | failure s m => simp [handleRequest, he, ht] at h
      | success token =>
        cases hv : resolveEmailId (verify token creds.jwtSecret) with
        | failure s m => simp [handleRequest, he, ht, hv] at h
        | success claims =>
          cases hf : fetchEmailHtml (resend claims.emailId creds.apiKey) with
          | failure s m => simp [handleRequest, he, ht, hv, hf] at h
          | success html =>
            simp only [handleRequest, he, ht, hv, hf] at h ⊢
            by_cases hc :
                0 < claims.expiresAtSeconds - Int.ofNat (nowMs / 1000)
            · rw [if_pos hc] at h
              exact ⟨(Option.some.inj h).symm, trivial⟩
            · rw [if_neg hc] at h
              simp at h
  exact ⟨rfl, key.1, key.2, rfl⟩

/-- Witness for C2: a concrete first request stores the 95-second
response; a second request hitting that entry returns it untouched under a
different environment, verifier, provider, and clock. -/
theorem claim_C2_second_request_served_from_cache_witness :
    handleRequest
        (some { status := 200
                contentType := "text/html; charset=utf-8"
                cacheControl := some "public, max-age=95, s-maxage=95"
                body := "<p>hi</p>" })
        ⟨"", ""⟩ none (fun _ _ => .error .badSignature)
        (fun _ _ => .throws) 0 =
      ⟨{ status := 200
         contentType := "text/html; charset=utf-8"
         cacheControl := some "public, max-age=95, s-maxage=95"
         body := "<p>hi</p>" }, none, false⟩ ∧
    ({ status := 200
       contentType := "text/html; charset=utf-8"
       cacheControl := some "public, max-age=95, s-maxage=95"
       body := "<p>hi</p>" } : Response) =
      (handleRequest none ⟨"k", "s"⟩ (some "t")
        (fun _ _ => .ok ⟨some (.str "email-1"), some (.num 10),
          some (.num 100)⟩)
        (fun _ _ => .returns (some ⟨some (.str "<p>hi</p>")⟩) none)
        5000).response ∧
    (handleRequest none ⟨"k", "s"⟩ (some "t")
        (fun _ _ => .ok ⟨some (.str "email-1"), some (.num 10),
          some (.num 100)⟩)
        (fun _ _ => .returns (some ⟨some (.str "<p>hi</p>")⟩) none)
        5000).fetchInvoked = true ∧
    (handleRequest
        (some { status := 200
                contentType := "text/html; charset=utf-8"
                cacheControl := some "public, max-age=95, s-maxage=95"
                body := "<p>hi</p>" })
        ⟨"", ""⟩ none (fun _ _ => .error .badSignature)
        (fun _ _ => .throws) 0).fetchInvoked = false :=
  claim_C2_second_request_served_from_cache ⟨"k", "s"⟩ (some "t")
    (fun _ _ => .ok ⟨some (.str "email-1"), some (.num 10), some (.num 100)⟩)
    (fun _ _ => .returns (some ⟨some (.str "<p>hi</p>")⟩) none) 5000
    { status := 200
      contentType := "text/html; charset=utf-8"
      cacheControl := some "public, max-age=95, s-maxage=95"
      body := "<p>hi</p>" }
    (by decide) ⟨"", ""⟩ none (fun _ _ => .error .badSignature)
    (fun _ _ => .throws) 0

/-- C4: the pipeline writes a cache entry iff the request missed the
cache, every stage succeeded, and the remaining TTL is positive; moreover
any written entry is exactly the 200 success response, so no failure
response and no non-positive-TTL response is ever stored. -/
theorem claim_C4_cache_write_iff_success_positive_ttl
    (cached : Option Response) (env : Env) (tokenParam : Option String)
    (verify : String → String → VerifyOutcome)
    (resend : String → String → ResendBehavior) (nowMs : Nat) :
    ((handleRequest cached env tokenParam verify resend nowMs).cachePut
        ≠ none ↔
      cached = none ∧ ∃ creds token claims html,
        validateEnv env = .success creds ∧
        extractTokenFromRequest tokenParam = .success token ∧
        resolveEmailId (verify token creds.jwtSecret) = .success claims ∧
        fetchEmailHtml (resend claims.emailId creds.apiKey) =
          .success html ∧
        0 < claims.expiresAtSeconds - Int.ofNat (nowMs / 1000)) ∧
    ((handleRequest cached env tokenParam verify resend nowMs).cachePut
        = none ∨
      ((handleRequest cached env tokenParam verify resend nowMs).cachePut =
        some (handleRequest cached env tokenParam verify resend
          nowMs).response ∧
       (handleRequest cached env tokenParam verify resend
         nowMs).response.status = 200)) := by
  cases cached with
  | some r => simp [handleRequest]
  | none =>
    cases he : validateEnv env with
    | failure s m => simp [handleRequest, he]
    | success creds =>
      cases ht : extractTokenFromRequest tokenParam with
      | failure s m => simp [handleRequest, he, ht]
      | success token =>
        cases hv : resolveEmailId (verify token creds.jwtSecret) with
        | failure s m => simp [handleRequest, he, ht, hv]
        | success claims =>
          cases hf : fetchEmailHtml (resend claims.emailId creds.apiKey) with
          | failure s m => simp [handleRequest, he, ht, hv, hf]
          | success html =>
            by_cases hc :
                0 < claims.expiresAtSeconds - Int.ofNat (nowMs / 1000)
            · simp [handleRequest, he, ht, hv, hf, hc,
                createSuccessResponse]
              exact le_or_lt _ _
            · simp [handleRequest, he, ht, hv, hf, hc]
              left
              simp only [Int.ofNat_eq_coe] at hc
              omega

end ResendLink
